import Mathlib

/-!
Job-board backend (`src/index.js`): authentication, ownership and job CRUD.

A shallow embedding of the Express handlers of `src/index.js`.

* The document store (Mongoose `User` / `Job` collections) is an in-memory pair of
  lists; every awaited store call may throw, which is driven by a per-request
  oracle `Faults` indexed by the position of the call inside the handler.
* `jsonwebtoken` is modelled symbolically: a token is either a piece of text that
  is not a signed token, or a payload together with the key it was signed with.
* `bcryptjs`, the Google id-token verifier and Mongoose's casts (of a route parameter to
  an ObjectId, of an operator object to a filter) are parameters of the environment.
-/

set_option autoImplicit false

namespace JobBoard

/-! ## Values thrown and sent -/

/-- A thrown JavaScript error: its `message` and its enumerable own properties
(what `JSON.stringify` shows of it). -/
structure Exn where
  message : String
  props : List (String × String)
  deriving DecidableEq, Repr

/-- Claims handed to `jwt.sign`: `{ _id, username }`. -/
structure Claims where
  _id : String
  username : String
  deriving DecidableEq, Repr

/-- What `jwt.verify` returns: the signed claims plus `iat` and, when the token
was signed with `expiresIn`, `exp` (both in seconds). -/
structure Decoded where
  _id : String
  username : String
  iat : Nat
  exp : Option Nat
  deriving DecidableEq, Repr

/-- The value of a token as it travels in a response body or in the `auth-token`
header: arbitrary text that is not a signed token, or a token carrying `payload`
signed with `key`. -/
inductive Token where
  | text (s : String)
  | jws (payload : Decoded) (key : String)
  deriving DecidableEq, Repr

/-- A user document (`models/userModel`): `password` is absent for accounts created
by `/google-sign-in`, `googleId` is absent for accounts created by `/register`. -/
structure User where
  _id : String
  username : String
  email : Option String
  password : Option String
  googleId : Option String
  deriving DecidableEq, Repr

/-- A job document (`models/jobModel`); a field that was never set is `none`. -/
structure Job where
  _id : String
  title : Option String
  company : Option String
  location : Option String
  description : Option String
  employmentType : Option String
  postedDate : Option String
  applyLink : Option String
  postedBy : Option String
  deriving DecidableEq, Repr

/-- The JSON body of a job request; a key the client did not send is `none`. -/
structure JobBody where
  title : Option String
  company : Option String
  location : Option String
  description : Option String
  employmentType : Option String
  postedDate : Option String
  applyLink : Option String
  postedBy : Option String
  deriving DecidableEq, Repr

/-- The object `jobUpdateData` built by the PUT handler. -/
structure JobUpdateData where
  title : Option String
  company : Option String
  location : Option String
  description : Option String
  employmentType : Option String
  applyLink : Option String
  deriving DecidableEq, Repr

/-- A value of `req.query` as Express parses it: a string, an array (repeated key or
`key[]=` syntax) or an object (`key[sub]=` syntax). -/
inductive QueryValue where
  | str (s : String)
  | arr (items : List QueryValue)
  | obj (fields : List (String × QueryValue))

/-- The two collections. -/
structure Store where
  users : List User
  jobs : List Job
  deriving DecidableEq, Repr

/-- What a handler sends. -/
inductive Body where
  | text (s : String)
  | auth (token : Token) (username : String)
  | error (message : String)
  | job (j : Job)
  | jobs (js : List Job)
  | object (props : List (String × String))
  deriving DecidableEq, Repr

/-- Status code and body of the response. -/
structure Response where
  status : Nat
  body : Body
  deriving DecidableEq, Repr

/-- The verified payload of a Google id token (`ticket.getPayload()`). -/
structure Payload where
  sub : String
  name : Option String
  email : Option String
  deriving DecidableEq, Repr

/-- The `bcryptjs` primitives on two strings; either may throw. -/
structure Hasher where
  hash : String → Nat → Except Exn String
  compare : String → String → Except Exn Bool

/-- Process configuration and the external collaborators of one request. -/
structure Env where
  /-- The value of `process.env.SECRET_KEY`. -/
  secret : Option String
  /-- The clock, in seconds. -/
  now : Nat
  hasher : Hasher
  /-- The call `client.verifyIdToken` followed by `getPayload`. -/
  verifyIdToken : String → Except Exn Payload
  /-- The `_id` Mongoose gives to a document created during this request. -/
  freshId : String
  /-- Whether the store drops `undefined` keys of an update (newer Mongoose) or
  writes them as null (older Mongoose). -/
  omitUndefined : Bool
  /-- Mongoose's cast of an id string to an ObjectId, given as the canonical string of
  that ObjectId; `none` when the string is not an ObjectId and the call throws a
  `CastError`. -/
  castObjectId : String → Option String
  /-- Mongoose's cast, for the string path `employmentType`, of a filter value that is
  neither a string nor an array of strings (an operator object such as `{ $ne: x }`, a
  nested array): the condition on the stored field, or the error thrown. -/
  castOperators : QueryValue → Except Exn (Option String → Bool)

/-- For the n-th awaited store call of a handler, the error it throws, if any
(store unreachable, validation error, duplicate key). -/
abbrev Faults := Nat → Option Exn

/-! ## JavaScript helpers -/

/-- Truthiness of a string-or-undefined value: `undefined` and `""` are falsy. -/
def truthy : Option String → Bool
  | none => false
  | some s => s != ""

/-- The expression `s.split(sep)[0]`: the characters of `s` before the first `sep`,
all of `s` when it has none. -/
def splitHead (s : String) (sep : Char) : String :=
  String.mk (s.toList.takeWhile (fun c => c != sep))

/-! ## jsonwebtoken -/

/-- Seconds in `expiresIn: "1d"`. -/
def oneDay : Nat := 86400

/-- The call `jwt.sign(claims, secret, { expiresIn })` at time `now`. -/
def jwtSign (c : Claims) (secret : Option String) (expiresIn : Option Nat) (now : Nat) :
    Except Exn Token :=
  match secret with
  | none => .error ⟨"secretOrPrivateKey must have a value", []⟩
  | some k =>
    if k == "" then .error ⟨"secretOrPrivateKey must have a value", []⟩
    else .ok (.jws ⟨c._id, c.username, now, expiresIn.map (fun d => now + d)⟩ k)

/-- The call `jwt.verify(token, secret)` at time `now`. -/
def jwtVerify (t : Token) (secret : Option String) (now : Nat) : Except Exn Decoded :=
  match t with
  | .text s =>
    if s == "" then .error ⟨"jwt must be provided", []⟩ else .error ⟨"jwt malformed", []⟩
  | .jws payload key =>
    match secret with
    | none => .error ⟨"secret or public key must be provided", []⟩
    | some k =>
      if k == "" then .error ⟨"secret or public key must be provided", []⟩
      else if key != k then .error ⟨"invalid signature", []⟩
      else
        match payload.exp with
        | some e => if now ≥ e then .error ⟨"jwt expired", []⟩ else .ok payload
        | none => .ok payload

/-- Truthiness of the header value: only the empty text is falsy. -/
def Token.truthy : Token → Bool
  | .text s => s != ""
  | .jws _ _ => true

/-! ## bcryptjs -/

/-- The call `bcrypt.compare(s, hash)` where `hash` may be `undefined`: bcryptjs
rejects when an argument is not a string. -/
def bcryptCompare (h : Hasher) (s : String) (hash : Option String) : Except Exn Bool :=
  match hash with
  | none => .error ⟨"Illegal arguments: string, undefined", []⟩
  | some d => h.compare s d

/-! ## Access guard -/

/-- Outcome of the middleware: it answered itself, or it called `next()` with
`req.user` set. -/
inductive GuardResult where
  | rejected (r : Response)
  | next (user : Decoded)
  deriving DecidableEq, Repr

/-- The middleware `verifyToken`; `token` is `req.header("auth-token")`. -/
def verifyToken (env : Env) (token : Option Token) : GuardResult :=
  match token with
  | none => .rejected ⟨401, .text "Access Denied"⟩
  | some t =>
    if !t.truthy then .rejected ⟨401, .text "Access Denied"⟩
    else
      match jwtVerify t env.secret env.now with
      | .ok verified => .next verified
      | .error _ => .rejected ⟨400, .text "Invalid Token"⟩

/-- A route registered as `app.METHOD(path, verifyToken, handler)`. -/
def guarded (env : Env) (token : Option Token) (s : Store)
    (handler : Decoded → Store → Response × Store) : Response × Store :=
  match verifyToken env token with
  | .rejected r => (r, s)
  | .next user => handler user s

/-! ## Store calls (Mongoose) -/

/-- The filter of `User.findOne({ $or: [{ email }, { username }] })`. -/
def matchesEmailOrUsername (email username : String) (u : User) : Bool :=
  u.email == some email || u.username == username

/-- The `CastError` thrown for an id that is not an ObjectId. -/
def castError (value : String) : Exn :=
  ⟨"Cast to ObjectId failed for value " ++ value ++ " at path _id for model Job",
    [("name", "CastError"), ("kind", "ObjectId"), ("value", value), ("path", "_id")]⟩

/-- The call `Job.findById(id)`: the id is cast, then looked up. -/
def findById (castObjectId : String → Option String) (id : String) (jobs : List Job) :
    Except Exn (Option Job) :=
  match castObjectId id with
  | none => .error (castError id)
  | some oid => .ok (jobs.find? (fun j => j._id == oid))

/-- The collection after `Job.findByIdAndDelete(id)`. -/
def findByIdAndDelete (castObjectId : String → Option String) (id : String) (jobs : List Job) :
    Except Exn (List Job) :=
  match castObjectId id with
  | none => .error (castError id)
  | some oid => .ok (jobs.eraseP (fun j => j._id == oid))

/-- One key of an update document: a value is written; `undefined` is dropped or
written as null. -/
def setField (omitUndefined : Bool) (old new : Option String) : Option String :=
  match new with
  | some v => some v
  | none => if omitUndefined then old else none

/-- The document after the update `u` is applied to it. -/
def applyUpdate (omitUndefined : Bool) (u : JobUpdateData) (j : Job) : Job :=
  { j with
    title := setField omitUndefined j.title u.title
    company := setField omitUndefined j.company u.company
    location := setField omitUndefined j.location u.location
    description := setField omitUndefined j.description u.description
    employmentType := setField omitUndefined j.employmentType u.employmentType
    applyLink := setField omitUndefined j.applyLink u.applyLink }

/-- The first document with `_id = oid` is updated: the updated document (or `null`) and
the collection afterwards. -/
def updateFirst (omitUndefined : Bool) (oid : String) (u : JobUpdateData) :
    List Job → Option Job × List Job
  | [] => (none, [])
  | j :: js =>
    if j._id == oid then
      (some (applyUpdate omitUndefined u j), applyUpdate omitUndefined u j :: js)
    else
      ((updateFirst omitUndefined oid u js).1, j :: (updateFirst omitUndefined oid u js).2)

/-- The call `Job.findByIdAndUpdate(id, u, { new: true })`: the id is cast, then the
document is updated. -/
def findByIdAndUpdate (castObjectId : String → Option String) (omitUndefined : Bool)
    (id : String) (u : JobUpdateData) (jobs : List Job) : Except Exn (Option Job × List Job) :=
  match castObjectId id with
  | none => .error (castError id)
  | some oid => .ok (updateFirst omitUndefined oid u jobs)

/-- The strings of an array whose items are all strings. -/
def stringItems : List QueryValue → Option (List String)
  | [] => some []
  | .str s :: rest => (stringItems rest).map (fun ss => s :: ss)
  | _ :: _ => none

/-- The condition `{ employmentType: v }` as Mongoose casts it for a string path: a
string is matched by equality, an array of strings becomes `$in`, anything else goes
through the operator cast. -/
def castFilter (castOperators : QueryValue → Except Exn (Option String → Bool)) :
    QueryValue → Except Exn (Job → Bool)
  | .str s => .ok (fun j => j.employmentType == some s)
  | .arr items =>
    match stringItems items with
    | some ss =>
      .ok (fun j =>
        match j.employmentType with
        | some t => ss.contains t
        | none => false)
    | none => (castOperators (.arr items)).map (fun p => fun j => p j.employmentType)
  | .obj fields => (castOperators (.obj fields)).map (fun p => fun j => p j.employmentType)

/-- The call `Job.find(query)` where `query` is `{}` or `{ employmentType: v }`. -/
def jobFind (castOperators : QueryValue → Except Exn (Option String → Bool))
    (query : Option QueryValue) (jobs : List Job) : Except Exn (List Job) :=
  match query with
  | none => .ok jobs
  | some v => (castFilter castOperators v).map (fun p => jobs.filter p)

/-- Truthiness of a query value: `undefined` and `""` are falsy, arrays and objects are
truthy. -/
def QueryValue.truthy : Option QueryValue → Bool
  | none => false
  | some (.str s) => s != ""
  | some (.arr _) => true
  | some (.obj _) => true

/-- The test `v !== "All"`. -/
def QueryValue.isNotAll : Option QueryValue → Bool
  | some (.str s) => s != "All"
  | _ => true

/-! ## Handlers -/

/-- Handler of `POST /register`. Store calls: 0 `findOne`, 1 `save`. -/
def register (env : Env) (faults : Faults) (s : Store) (username password email : String) :
    Response × Store :=
  match faults 0 with
  | some _ => (⟨500, .text "An error occurred during registration."⟩, s)
  | none =>
    match s.users.find? (matchesEmailOrUsername email username) with
    | some _ => (⟨400, .text "Username or email already exists."⟩, s)
    | none =>
      match env.hasher.hash password 10 with
      | .error _ => (⟨500, .text "An error occurred during registration."⟩, s)
      | .ok hashedPassword =>
        match faults 1 with
        | some _ => (⟨500, .text "An error occurred during registration."⟩, s)
        | none =>
          let savedUser : User :=
            ⟨env.freshId, username, some email, some hashedPassword, none⟩
          let s' : Store := { s with users := s.users ++ [savedUser] }
          match jwtSign ⟨savedUser._id, savedUser.username⟩ env.secret (some oneDay) env.now with
          | .error _ => (⟨500, .text "An error occurred during registration."⟩, s')
          | .ok token => (⟨201, .auth token savedUser.username⟩, s')

/-- Handler of `POST /login`. Store calls: 0 `findOne`. Every error thrown in the
`try` block is answered with status 400 and its own message. -/
def login (env : Env) (faults : Faults) (s : Store) (username password : String) :
    Response × Store :=
  match faults 0 with
  | some e => (⟨400, .error e.message⟩, s)
  | none =>
    match s.users.find? (fun u => u.username == username) with
    | none => (⟨400, .error "Invalid username or password"⟩, s)
    | some user =>
      match bcryptCompare env.hasher password user.password with
      | .error e => (⟨400, .error e.message⟩, s)
      | .ok validPassword =>
        if !validPassword then (⟨400, .error "Invalid username or password"⟩, s)
        else
          match jwtSign ⟨user._id, user.username⟩ env.secret none env.now with
          | .error e => (⟨400, .error e.message⟩, s)
          | .ok token => (⟨200, .auth token user.username⟩, s)

/-- The expression `payload["name"] || payload["email"].split("@")[0]`; it throws a
`TypeError` when the name is falsy and the email is `undefined`. -/
def displayName (payload : Payload) : Except Exn String :=
  if truthy payload.name then .ok (payload.name.getD "")
  else
    match payload.email with
    | none => .error ⟨"Cannot read properties of undefined (reading 'split')", []⟩
    | some email => .ok (splitHead email '@')

/-- Handler of `POST /google-sign-in`. Store calls: 0 `findOne`, 1 `save`. -/
def googleSignIn (env : Env) (faults : Faults) (s : Store) (idToken : String) :
    Response × Store :=
  match env.verifyIdToken idToken with
  | .error _ => (⟨500, .text "An error occurred during Google sign-in."⟩, s)
  | .ok payload =>
    match displayName payload with
    | .error _ => (⟨500, .text "An error occurred during Google sign-in."⟩, s)
    | .ok username =>
      match faults 0 with
      | some _ => (⟨500, .text "An error occurred during Google sign-in."⟩, s)
      | none =>
        match s.users.find? (fun u => u.googleId == some payload.sub) with
        | some user =>
          match jwtSign ⟨user._id, user.username⟩ env.secret none env.now with
          | .error _ => (⟨500, .text "An error occurred during Google sign-in."⟩, s)
          | .ok token => (⟨200, .auth token user.username⟩, s)
        | none =>
          match faults 1 with
          | some _ => (⟨500, .text "An error occurred during Google sign-in."⟩, s)
          | none =>
            let user : User := ⟨env.freshId, username, payload.email, none, some payload.sub⟩
            let s' : Store := { s with users := s.users ++ [user] }
            match jwtSign ⟨user._id, user.username⟩ env.secret none env.now with
            | .error _ => (⟨500, .text "An error occurred during Google sign-in."⟩, s')
            | .ok token => (⟨200, .auth token user.username⟩, s')

/-- Handler of `POST /api/jobEntries` (behind `verifyToken`). Store calls: 0 `save`. -/
def postJobEntry (env : Env) (faults : Faults) (body : JobBody) (user : Decoded) (s : Store) :
    Response × Store :=
  match faults 0 with
  | some _ => (⟨500, .text "An error occurred while posting the job advertisement."⟩, s)
  | none =>
    let newJob : Job :=
      ⟨env.freshId, body.title, body.company, body.location, body.description,
        body.employmentType, body.postedDate, body.applyLink, some user._id⟩
    (⟨201, .job newJob⟩, { s with jobs := s.jobs ++ [newJob] })

/-- Handler of `GET /user/posts` (behind `verifyToken`). Store calls: 0 `find`. -/
def getUserPosts (faults : Faults) (user : Decoded) (s : Store) : Response × Store :=
  match faults 0 with
  | some _ => (⟨500, .text "An error occurred while fetching the user's job posts."⟩, s)
  | none => (⟨200, .jobs (s.jobs.filter (fun j => j.postedBy == some user._id))⟩, s)

/-- Handler of `GET /api/jobEntries`; `employmentType` is `req.query.employmentType`,
passed to `Job.find` as Express parsed it. Store calls: 0 `find`. A thrown error is sent
back as the body. -/
def getJobEntries (env : Env) (faults : Faults) (s : Store) (employmentType : Option QueryValue) :
    Response × Store :=
  let query : Option QueryValue :=
    if QueryValue.truthy employmentType && QueryValue.isNotAll employmentType then employmentType
    else none
  match faults 0 with
  | some e => (⟨500, .object e.props⟩, s)
  | none =>
    match jobFind env.castOperators query s.jobs with
    | .error e => (⟨500, .object e.props⟩, s)
    | .ok jobEntries => (⟨200, .jobs jobEntries⟩, s)

/-- Handler of `GET /api/jobEntries/:id`. Store calls: 0 `findById`. -/
def getJobEntry (env : Env) (faults : Faults) (s : Store) (id : String) : Response × Store :=
  match faults 0 with
  | some _ => (⟨500, .text "An error occurred while fetching the job details."⟩, s)
  | none =>
    match findById env.castObjectId id s.jobs with
    | .error _ => (⟨500, .text "An error occurred while fetching the job details."⟩, s)
    | .ok (some jobEntry) => (⟨200, .job jobEntry⟩, s)
    | .ok none => (⟨404, .text "Job not found"⟩, s)

/-- Handler of `DELETE /api/jobEntries/:id` (behind `verifyToken`). Store calls:
0 `findById`, 1 `findByIdAndDelete`. Reading `postedBy.toString()` of a document
without `postedBy` throws. -/
def deleteJobEntry (env : Env) (faults : Faults) (id : String) (user : Decoded) (s : Store) :
    Response × Store :=
  match faults 0 with
  | some _ => (⟨500, .text "An error occurred while deleting the job entry."⟩, s)
  | none =>
    match findById env.castObjectId id s.jobs with
    | .error _ => (⟨500, .text "An error occurred while deleting the job entry."⟩, s)
    | .ok none => (⟨404, .text "Job not found"⟩, s)
    | .ok (some jobEntry) =>
      match jobEntry.postedBy with
      | none => (⟨500, .text "An error occurred while deleting the job entry."⟩, s)
      | some postedBy =>
        if postedBy != user._id then (⟨401, .text "Unauthorized"⟩, s)
        else
          match faults 1 with
          | some _ => (⟨500, .text "An error occurred while deleting the job entry."⟩, s)
          | none =>
            match findByIdAndDelete env.castObjectId id s.jobs with
            | .error _ => (⟨500, .text "An error occurred while deleting the job entry."⟩, s)
            | .ok jobs => (⟨200, .text "Job entry deleted"⟩, { s with jobs := jobs })

/-- Handler of `PUT /api/jobEntries/:id` (behind `verifyToken`). Store calls:
0 `findByIdAndUpdate`. -/
def putJobEntry (env : Env) (faults : Faults) (id : String) (body : JobBody) (_user : Decoded)
    (s : Store) : Response × Store :=
  let jobUpdateData : JobUpdateData :=
    ⟨body.title, body.company, body.location, body.description, body.employmentType,
      body.applyLink⟩
  match faults 0 with
  | some _ => (⟨500, .text "An error occurred while updating the job entry."⟩, s)
  | none =>
    match findByIdAndUpdate env.castObjectId env.omitUndefined id jobUpdateData s.jobs with
    | .error _ => (⟨500, .text "An error occurred while updating the job entry."⟩, s)
    | .ok (none, _) => (⟨404, .text "Job not found"⟩, s)
    | .ok (some updatedJob, jobs) => (⟨200, .job updatedJob⟩, { s with jobs := jobs })

/-! ## Protected routes -/

/-- Route `POST /api/jobEntries`. -/
def postJobEntryRoute (env : Env) (faults : Faults) (token : Option Token) (body : JobBody)
    (s : Store) : Response × Store :=
  guarded env token s (postJobEntry env faults body)

/-- Route `GET /user/posts`. -/
def getUserPostsRoute (env : Env) (faults : Faults) (token : Option Token) (s : Store) :
    Response × Store :=
  guarded env token s (getUserPosts faults)

/-- Route `DELETE /api/jobEntries/:id`. -/
def deleteJobEntryRoute (env : Env) (faults : Faults) (token : Option Token) (id : String)
    (s : Store) : Response × Store :=
  guarded env token s (deleteJobEntry env faults id)

/-- Route `PUT /api/jobEntries/:id`. -/
def putJobEntryRoute (env : Env) (faults : Faults) (token : Option Token) (id : String)
    (body : JobBody) (s : Store) : Response × Store :=
  guarded env token s (putJobEntry env faults id body)

/-! ## Sample data -/

/-- A store that never throws. -/
def noFaults : Faults := fun _ => none

/-- A hasher that tags the plaintext; enough to run the handlers on examples. -/
def sampleHasher : Hasher where
  hash := fun s _ => .ok ("$2a$" ++ s)
  compare := fun s d => .ok (("$2a$" ++ s) == d)

/-- A hexadecimal digit. -/
def isHexDigit (c : Char) : Bool :=
  ('0' ≤ c && c ≤ '9') || ('a' ≤ c && c ≤ 'f') || ('A' ≤ c && c ≤ 'F')

/-- The ObjectId cast of the examples: a string of 24 hexadecimal digits is an ObjectId,
written in lower case; any other string is none. -/
def hexObjectId (s : String) : Option String :=
  if s.length == 24 && s.toList.all isHexDigit then
    some (String.mk (s.toList.map Char.toLower))
  else none

/-- The operator cast of the examples: `{ $ne: x }` is understood, anything else is a
cast error. -/
def sampleOperators : QueryValue → Except Exn (Option String → Bool)
  | .obj [("$ne", .str x)] => .ok (fun field => field != some x)
  | _ => .error ⟨"Cast to string failed at path employmentType", [("name", "CastError")]⟩

/-- Id of the user alice. -/
def aliceId : String := "65a1f0c2b3d4e5f6a7b8c901"

/-- Id of the user bob. -/
def bobId : String := "65a1f0c2b3d4e5f6a7b8c902"

/-- Id of alice's job. -/
def aliceJobId : String := "65a1f0c2b3d4e5f6a7b8c9a1"

/-- Id of bob's job. -/
def bobJobId : String := "65a1f0c2b3d4e5f6a7b8c9a2"

/-- A well-formed id that names no job. -/
def unusedId : String := "65a1f0c2b3d4e5f6a7b8c9ff"

/-- The id given to a document created in the examples. -/
def newId : String := "65a1f0c2b3d4e5f6a7b8c9f9"

/-- A configured server at time 1000. -/
def sampleEnv : Env where
  secret := some "k1"
  now := 1000
  hasher := sampleHasher
  verifyIdToken := fun _ => .error ⟨"Wrong number of segments in token", []⟩
  freshId := newId
  omitUndefined := true
  castObjectId := hexObjectId
  castOperators := sampleOperators

/-- The payload of alice's token. -/
def aliceUser : Decoded := ⟨aliceId, "alice", 900, none⟩

/-- The payload of bob's token. -/
def bobUser : Decoded := ⟨bobId, "bob", 900, none⟩

/-- The token of alice, signed with the server key, without expiry. -/
def aliceToken : Token := .jws aliceUser "k1"

/-- The token of bob, signed with the server key, without expiry. -/
def bobToken : Token := .jws bobUser "k1"

/-- A job posted by alice. -/
def aliceJob : Job :=
  ⟨aliceJobId, some "Engineer", some "Acme", some "Cork", some "Build things", some "Full-time",
    some "2024-01-01", some "https://acme.example/apply", some aliceId⟩

/-- A second job posted by bob. -/
def bobJob : Job :=
  ⟨bobJobId, some "Analyst", some "Initech", some "Galway", some "Count things",
    some "Part-time", some "2024-02-01", some "https://initech.example/apply", some bobId⟩

/-- A third job, posted by bob, of another employment type. -/
def internJob : Job :=
  ⟨"65a1f0c2b3d4e5f6a7b8c9a3", some "Intern", some "Initech", some "Galway", some "Learn things",
    some "Internship", some "2024-03-01", some "https://initech.example/intern", some bobId⟩

/-- A store with two local users and two jobs. -/
def sampleStore : Store where
  users := [⟨aliceId, "alice", some "a@x.com", some "$2a$pw1", none⟩,
    ⟨bobId, "bob", some "b@x.com", some "$2a$pw2", none⟩]
  jobs := [aliceJob, bobJob]

/-- The sample store with the third job added. -/
def threeJobStore : Store := { sampleStore with jobs := [aliceJob, bobJob, internJob] }

/-- A server whose Google verifier accepts the assertion "carol-assertion" (subject
`g-117`, name Carol, carol@gmail.com) and the assertion "erin-assertion" (subject `g-204`,
empty name, erin@example.com). -/
def googleEnv : Env :=
  { sampleEnv with
    verifyIdToken := fun idToken =>
      if idToken == "carol-assertion" then .ok ⟨"g-117", some "Carol", some "carol@gmail.com"⟩
      else if idToken == "erin-assertion" then .ok ⟨"g-204", some "", some "erin@example.com"⟩
      else .error ⟨"Wrong number of segments in token", []⟩ }

/-- The store after Carol's first Google sign-in on an empty store: her account has no
password. -/
def federatedStore : Store where
  users := [⟨newId, "Carol", some "carol@gmail.com", none, some "g-117"⟩]
  jobs := []

/-- A store that is unreachable: every call throws the same network error. -/
def storeDown : Faults :=
  fun _ => some ⟨"connect ECONNREFUSED 127.0.0.1:27017", [("name", "MongoNetworkError")]⟩

/-- A PUT body that also carries `postedBy` and `postedDate`. -/
def takeoverBody : JobBody :=
  ⟨some "Senior Engineer", none, none, none, some "Contract", some "1999-01-01", none,
    some bobId⟩

/-- A server as `sampleEnv` whose hashing primitive throws. -/
def brokenHasherEnv : Env :=
  { sampleEnv with
    hasher := ⟨fun _ _ => .error ⟨"Illegal salt", []⟩, fun _ _ => .error ⟨"Illegal salt", []⟩⟩ }

/-- The server `sampleEnv` a day and a second later. -/
def nextDayEnv : Env := { sampleEnv with now := 1000 + oneDay + 1 }

/-! ## Frame condition of the update -/

/-- Relation between a job before and after `PUT /api/jobEntries/:id`, where `target` is
the ObjectId the route parameter was cast to (if it was): `_id`, `postedBy` and
`postedDate` are kept, and a job that is not the target is kept whole. -/
def KeptOutsideAllowList (target : Option String) (j j' : Job) : Prop :=
  j'._id = j._id ∧ j'.postedBy = j.postedBy ∧ j'.postedDate = j.postedDate
    ∧ (some j._id ≠ target → j' = j)

/-! ## Lemmas about the store calls -/

theorem findById_ok_some {cast : String → Option String} {id : String} {jobs : List Job}
    {j : Job} (h : findById cast id jobs = .ok (some j)) :
    ∃ oid, cast id = some oid ∧ j ∈ jobs ∧ j._id = oid := by
  unfold findById at h
  cases hc : cast id with
  | none => simp [hc] at h
  | some oid =>
    simp only [hc, Except.ok.injEq] at h
    exact ⟨oid, rfl, List.mem_of_find?_eq_some h, by simpa using List.find?_some h⟩

theorem findById_ok_none {cast : String → Option String} {id : String} {jobs : List Job}
    (h : findById cast id jobs = .ok none) :
    ∃ oid, cast id = some oid ∧ jobs.find? (fun j => j._id == oid) = none := by
  unfold findById at h
  cases hc : cast id with
  | none => simp [hc] at h
  | some oid =>
    simp only [hc, Except.ok.injEq] at h
    exact ⟨oid, rfl, h⟩

theorem eraseP_id_eq_filter (oid : String) (jobs : List Job)
    (hnodup : (jobs.map (fun j => j._id)).Nodup) :
    jobs.eraseP (fun j => j._id == oid) = jobs.filter (fun j => j._id != oid) := by
  induction jobs with
  | nil => rfl
  | cons j js ih =>
    simp only [List.map_cons, List.nodup_cons] at hnodup
    by_cases hj : j._id = oid
    · have hnot : ∀ k ∈ js, k._id ≠ oid := by
        intro k hk hkid
        exact hnodup.1 (List.mem_map.mpr ⟨k, hk, by rw [hkid, hj]⟩)
      have hfil : js.filter (fun k => k._id != oid) = js := by
        rw [List.filter_eq_self]
        intro k hk
        simpa using hnot k hk
      simp [List.eraseP_cons, hj, hfil]
    · simp [List.eraseP_cons, hj, ih hnodup.2]

theorem find?_id_filter_ne (oid : String) (jobs : List Job) :
    (jobs.filter (fun j => j._id != oid)).find? (fun j => j._id == oid) = none := by
  rw [List.find?_eq_none]
  intro j hj
  have := (List.mem_filter.mp hj).2
  simpa using this

theorem updateFirst_absent (omitUndefined : Bool) (oid : String) (u : JobUpdateData)
    (jobs : List Job) (h : jobs.find? (fun j => j._id == oid) = none) :
    updateFirst omitUndefined oid u jobs = (none, jobs) := by
  induction jobs with
  | nil => rfl
  | cons j js ih =>
    rw [List.find?_cons] at h
    by_cases hj : (j._id == oid) = true
    · simp [hj] at h
    · simp only [hj] at h
      simp only [updateFirst, hj, ih h]
      simp

theorem kept_same (target : Option String) (jobs : List Job) :
    List.Forall₂ (KeptOutsideAllowList target) jobs jobs := by
  rw [List.forall₂_same]
  intro k _
  exact ⟨rfl, rfl, rfl, fun _ => rfl⟩

theorem updateFirst_frame (omitUndefined : Bool) (oid : String) (u : JobUpdateData)
    (jobs : List Job) :
    List.Forall₂ (KeptOutsideAllowList (some oid)) jobs
      (updateFirst omitUndefined oid u jobs).2 := by
  induction jobs with
  | nil => exact List.Forall₂.nil
  | cons j js ih =>
    by_cases hj : (j._id == oid) = true
    · simp only [updateFirst, hj, if_true]
      refine List.Forall₂.cons ⟨rfl, rfl, rfl, ?_⟩ (kept_same _ _)
      intro hne
      exact absurd (by simpa using hj) hne
    · simp only [updateFirst, hj]
      exact List.Forall₂.cons ⟨rfl, rfl, rfl, fun _ => rfl⟩ ih

theorem stringItems_map_str (vs : List String) :
    stringItems (vs.map QueryValue.str) = some vs := by
  induction vs with
  | nil => rfl
  | cons v rest ih => simp [stringItems, ih]

theorem takeWhile_ne_sep (sep : Char) (l : List Char) :
    (∃ rest, l = l.takeWhile (fun c => c != sep) ++ sep :: rest)
      ∨ (sep ∉ l ∧ l.takeWhile (fun c => c != sep) = l) := by
  induction l with
  | nil => exact Or.inr ⟨by simp, rfl⟩
  | cons a t ih =>
    by_cases ha : a = sep
    · subst ha
      exact Or.inl ⟨t, by simp [List.takeWhile_cons]⟩
    · have hp : (a != sep) = true := by simpa using ha
      rcases ih with ⟨rest, hrest⟩ | ⟨hnot, htake⟩
      · refine Or.inl ⟨rest, ?_⟩
        rw [List.takeWhile_cons, hp]
        simpa using hrest
      · refine Or.inr ⟨?_, ?_⟩
        · simp only [List.mem_cons, not_or]
          exact ⟨fun h => ha h.symm, hnot⟩
        · rw [List.takeWhile_cons, hp]
          simp [htake]

theorem splitHead_spec (s : String) (sep : Char) :
    ((∃ rest, s.toList = (splitHead s sep).toList ++ sep :: rest)
        ∨ (sep ∉ s.toList ∧ splitHead s sep = s))
      ∧ sep ∉ (splitHead s sep).toList := by
  constructor
  · rcases takeWhile_ne_sep sep s.toList with ⟨rest, hrest⟩ | ⟨hnot, htake⟩
    · exact Or.inl ⟨rest, by simpa [splitHead] using hrest⟩
    · refine Or.inr ⟨hnot, ?_⟩
      unfold splitHead
      rw [htake]
      cases s
      rfl
  · intro hmem
    have := List.mem_takeWhile_imp (show sep ∈ s.toList.takeWhile (fun c => c != sep) from by
      simpa [splitHead] using hmem)
    simp at this

theorem jwtSign_ok (c : Claims) (k : String) (expiresIn : Option Nat) (now : Nat) (hk : k ≠ "") :
    jwtSign c (some k) expiresIn now
      = .ok (.jws ⟨c._id, c.username, now, expiresIn.map (fun d => now + d)⟩ k) := by
  simp [jwtSign, hk]

/-! ## Claims -/

/-- C1: on `DELETE /api/jobEntries/:id`, when the store answers, the id names a job of
the store and the authenticated identity's `_id` differs from that job's `postedBy`, the
response is 401 "Unauthorized" and the store is exactly what it was. -/
theorem delete_by_non_owner_unauthorized (env : Env) (faults : Faults) (s : Store)
    (token : Option Token) (user : Decoded) (id : String) (job : Job) (owner : String)
    (hauth : verifyToken env token = .next user)
    (hstore : faults 0 = none)
    (hjob : findById env.castObjectId id s.jobs = .ok (some job))
    (howner : job.postedBy = some owner)
    (hne : user._id ≠ owner) :
    deleteJobEntryRoute env faults token id s = (⟨401, .text "Unauthorized"⟩, s)
      ∧ job ∈ (deleteJobEntryRoute env faults token id s).2.jobs := by
  have hne' : owner ≠ user._id := fun h => hne h.symm
  have hrun : deleteJobEntryRoute env faults token id s = (⟨401, .text "Unauthorized"⟩, s) := by
    simp [deleteJobEntryRoute, guarded, hauth, deleteJobEntry, hstore, hjob, howner, hne']
  rw [hrun]
  obtain ⟨_, _, hmem, _⟩ := findById_ok_some hjob
  exact ⟨rfl, hmem⟩

/-- Witness for C1: bob tries to delete alice's job. -/
theorem delete_by_non_owner_unauthorized_witness :
    deleteJobEntryRoute sampleEnv noFaults (some bobToken) aliceJobId sampleStore
        = (⟨401, .text "Unauthorized"⟩, sampleStore)
      ∧ aliceJob ∈
        (deleteJobEntryRoute sampleEnv noFaults (some bobToken) aliceJobId sampleStore).2.jobs :=
  delete_by_non_owner_unauthorized sampleEnv noFaults sampleStore (some bobToken)
    bobUser aliceJobId aliceJob aliceId (by decide) rfl rfl rfl (by decide)

/-- C2: on `DELETE /api/jobEntries/:id` by the owner, when the store answers and ids are
unique, the response is 200 "Job entry deleted", the users are untouched, the jobs left
are exactly the other jobs, and a second delete of that id by the same identity answers
404 "Job not found" and leaves the store as it is. -/
theorem delete_by_owner_then_not_found (env env2 : Env) (faults faults2 : Faults) (s : Store)
    (token token2 : Option Token) (user : Decoded) (id : String) (job : Job)
    (hauth : verifyToken env token = .next user)
    (hauth2 : verifyToken env2 token2 = .next user)
    (hcast2 : env2.castObjectId id = env.castObjectId id)
    (hfind : faults 0 = none) (hdel : faults 1 = none) (hfind2 : faults2 0 = none)
    (hnodup : (s.jobs.map (fun j => j._id)).Nodup)
    (hjob : findById env.castObjectId id s.jobs = .ok (some job))
    (howner : job.postedBy = some user._id) :
    ∃ s', deleteJobEntryRoute env faults token id s = (⟨200, .text "Job entry deleted"⟩, s')
      ∧ s'.users = s.users
      ∧ s'.jobs = s.jobs.filter (fun j => j._id != job._id)
      ∧ (∀ j, j ∈ s'.jobs ↔ j ∈ s.jobs ∧ j ≠ job)
      ∧ deleteJobEntryRoute env2 faults2 token2 id s' = (⟨404, .text "Job not found"⟩, s') := by
  obtain ⟨oid, hcast, hmem, hid⟩ := findById_ok_some hjob
  subst hid
  have herase : findByIdAndDelete env.castObjectId id s.jobs
      = .ok (s.jobs.filter (fun j => j._id != job._id)) := by
    simp only [findByIdAndDelete, hcast]
    rw [eraseP_id_eq_filter job._id s.jobs hnodup]
  refine ⟨{ s with jobs := s.jobs.filter (fun j => j._id != job._id) }, ?_, rfl, rfl, ?_, ?_⟩
  · simp [deleteJobEntryRoute, guarded, hauth, deleteJobEntry, hfind, hjob, howner, hdel, herase]
  · intro j
    simp only [List.mem_filter]
    constructor
    · rintro ⟨hj, hne⟩
      refine ⟨hj, ?_⟩
      rintro rfl
      simp at hne
    · rintro ⟨hj, hne⟩
      refine ⟨hj, ?_⟩
      have : j._id ≠ job._id := by
        intro hjid
        exact hne (List.inj_on_of_nodup_map hnodup hj hmem hjid)
      simpa using this
  · have hnone : findById env2.castObjectId id (s.jobs.filter (fun j => j._id != job._id))
        = .ok none := by
      simp only [findById, hcast2, hcast]
      rw [find?_id_filter_ne]
    simp [deleteJobEntryRoute, guarded, hauth2, deleteJobEntry, hfind2, hnone]

/-- Witness for C2: alice deletes her own job, then tries again. -/
theorem delete_by_owner_then_not_found_witness :
    deleteJobEntryRoute sampleEnv noFaults (some aliceToken) aliceJobId sampleStore
        = (⟨200, .text "Job entry deleted"⟩, ⟨sampleStore.users, [bobJob]⟩)
      ∧ deleteJobEntryRoute sampleEnv noFaults (some aliceToken) aliceJobId
          ⟨sampleStore.users, [bobJob]⟩
        = (⟨404, .text "Job not found"⟩, ⟨sampleStore.users, [bobJob]⟩) := by
  obtain ⟨s', hfirst, husers, hjobs, _, hsecond⟩ :=
    delete_by_owner_then_not_found sampleEnv sampleEnv noFaults noFaults sampleStore
      (some aliceToken) (some aliceToken) aliceUser aliceJobId aliceJob
      (by decide) (by decide) rfl rfl rfl rfl (by decide) rfl rfl
  have hs : s' = ⟨sampleStore.users, [bobJob]⟩ := by
    cases s' with
    | mk users jobs =>
      simp only at husers hjobs
      rw [husers, hjobs]
      decide
  rw [hs] at hfirst hsecond
  exact ⟨hfirst, hsecond⟩

/-- C3, as stated, fails for a header that is present but empty: verification of the
empty text fails, yet the guard answers 401 "Access Denied" and not 400. -/
theorem verifyToken_empty_header_is_401 :
    jwtVerify (.text "") sampleEnv.secret sampleEnv.now = .error ⟨"jwt must be provided", []⟩
      ∧ verifyToken sampleEnv (some (.text "")) = .rejected ⟨401, .text "Access Denied"⟩
      ∧ verifyToken sampleEnv (some (.text "")) ≠ .rejected ⟨400, .text "Invalid Token"⟩ :=
  ⟨rfl, rfl, by decide⟩

/-- C3, amended: the guard has exactly one of three outcomes (the three results are
distinct values): header missing or empty, 401 "Access Denied"; header non-empty and
verification fails, 400 "Invalid Token"; verification succeeds, `next()` with the
decoded payload as `req.user` and no response of its own. When it rejects, the handler
is not run and the store is returned as it was; when it accepts, the handler receives
the store as it was. The guard takes no store. -/
theorem verifyToken_outcomes (env : Env) (token : Option Token) :
    (((token = none ∨ token = some (.text ""))
          ∧ verifyToken env token = .rejected ⟨401, .text "Access Denied"⟩)
        ∨ (∃ t e, token = some t ∧ t ≠ .text "" ∧ jwtVerify t env.secret env.now = .error e
          ∧ verifyToken env token = .rejected ⟨400, .text "Invalid Token"⟩)
        ∨ (∃ t user, token = some t ∧ jwtVerify t env.secret env.now = .ok user
          ∧ verifyToken env token = .next user))
      ∧ (∀ r s handler, verifyToken env token = .rejected r → guarded env token s handler = (r, s))
      ∧ (∀ user s handler, verifyToken env token = .next user →
          guarded env token s handler = handler user s) := by
  refine ⟨?_, ?_, ?_⟩
  · cases token with
    | none => exact Or.inl ⟨Or.inl rfl, rfl⟩
    | some t =>
      cases t with
      | text str =>
        by_cases hs : str = ""
        · subst hs
          exact Or.inl ⟨Or.inr rfl, rfl⟩
        · refine Or.inr (Or.inl ⟨.text str, ⟨"jwt malformed", []⟩, rfl, ?_, ?_, ?_⟩)
          · simpa using hs
          · simp [jwtVerify, hs]
          · simp [verifyToken, Token.truthy, jwtVerify, hs]
      | jws payload key =>
        cases hv : jwtVerify (.jws payload key) env.secret env.now with
        | error e =>
          refine Or.inr (Or.inl ⟨.jws payload key, e, rfl, ?_, hv, ?_⟩)
          · simp
          · simp [verifyToken, Token.truthy, hv]
        | ok user =>
          refine Or.inr (Or.inr ⟨.jws payload key, user, rfl, hv, ?_⟩)
          simp [verifyToken, Token.truthy, hv]
  · intro r s handler h
    simp [guarded, h]
  · intro user s handler h
    simp [guarded, h]

/-- Witness for C3: a header that is not a token is answered 400 without running the
handler, and alice's token hands the request and the store to the handler. -/
theorem verifyToken_outcomes_witness :
    guarded sampleEnv (some (.text "garbage")) sampleStore
        (deleteJobEntry sampleEnv noFaults aliceJobId)
        = (⟨400, .text "Invalid Token"⟩, sampleStore)
      ∧ guarded sampleEnv (some aliceToken) sampleStore (getUserPosts noFaults)
        = getUserPosts noFaults aliceUser sampleStore :=
  ⟨(verifyToken_outcomes sampleEnv (some (.text "garbage"))).2.1 _ _ _ (by decide),
    (verifyToken_outcomes sampleEnv (some aliceToken)).2.2 _ _ _ (by decide)⟩

/-- C4: on `POST /register`, when the store answers and some stored user has the
requested username or the requested email, the response is 400 "Username or email
already exists." (a text body, no token) and the store is exactly what it was. -/
theorem register_duplicate_rejected (env : Env) (faults : Faults) (s : Store)
    (username password email : String)
    (hstore : faults 0 = none)
    (hdup : ∃ u ∈ s.users, u.username = username ∨ u.email = some email) :
    register env faults s username password email
      = (⟨400, .text "Username or email already exists."⟩, s) := by
  obtain ⟨u, hu, hmatch⟩ := hdup
  have hsome : (s.users.find? (matchesEmailOrUsername email username)).isSome = true := by
    rw [List.find?_isSome]
    refine ⟨u, hu, ?_⟩
    rcases hmatch with h | h <;> simp [matchesEmailOrUsername, h]
  obtain ⟨w, hw⟩ := Option.isSome_iff_exists.mp hsome
  simp [register, hstore, hw]

/-- Witness for C4: registering "alice" again with another email. -/
theorem register_duplicate_rejected_witness :
    register sampleEnv noFaults sampleStore "alice" "pw9" "other@x.com"
      = (⟨400, .text "Username or email already exists."⟩, sampleStore) :=
  register_duplicate_rejected sampleEnv noFaults sampleStore "alice" "pw9" "other@x.com" rfl
    ⟨⟨aliceId, "alice", some "a@x.com", some "$2a$pw1", none⟩, by decide, Or.inl rfl⟩

/-- C5, as stated, fails for the supplied value `""`, which is not "All" and yet yields
the full list, and for a repeated key, which reaches `Job.find` as an array and yields
the jobs of either type. -/
theorem getJobEntries_empty_and_array_filter :
    getJobEntries sampleEnv noFaults threeJobStore (some (.str ""))
        = (⟨200, .jobs [aliceJob, bobJob, internJob]⟩, threeJobStore)
      ∧ aliceJob.employmentType ≠ some ""
      ∧ getJobEntries sampleEnv noFaults threeJobStore
          (some (.arr [.str "Full-time", .str "Part-time"]))
        = (⟨200, .jobs [aliceJob, bobJob]⟩, threeJobStore)
      ∧ aliceJob.employmentType ≠ bobJob.employmentType := by
  refine ⟨rfl, by decide, rfl, by decide⟩

/-- C5, amended: on `GET /api/jobEntries`, when the store answers: a query value that is
a string, neither empty nor "All", yields exactly the jobs whose `employmentType` equals
it (in store order); an omitted value, the empty string or "All" yields all jobs; a
repeated key (an array of strings) yields exactly the jobs whose `employmentType` is one
of the strings. The store is unchanged. -/
theorem getJobEntries_filter (env : Env) (faults : Faults) (s : Store)
    (employmentType : Option QueryValue) (hstore : faults 0 = none) :
    (∀ v, employmentType = some (.str v) → v ≠ "" → v ≠ "All" →
        ∃ js, getJobEntries env faults s employmentType = (⟨200, .jobs js⟩, s)
          ∧ js = s.jobs.filter (fun j => j.employmentType == some v)
          ∧ ∀ j, j ∈ js ↔ j ∈ s.jobs ∧ j.employmentType = some v)
      ∧ (employmentType = none ∨ employmentType = some (.str "")
            ∨ employmentType = some (.str "All") →
          getJobEntries env faults s employmentType = (⟨200, .jobs s.jobs⟩, s))
      ∧ (∀ vs : List String, employmentType = some (.arr (vs.map QueryValue.str)) →
          ∃ js, getJobEntries env faults s employmentType = (⟨200, .jobs js⟩, s)
            ∧ ∀ j, j ∈ js ↔ j ∈ s.jobs ∧ ∃ v ∈ vs, j.employmentType = some v) := by
  refine ⟨?_, ?_, ?_⟩
  · intro v hv hne hall
    subst hv
    refine ⟨s.jobs.filter (fun j => j.employmentType == some v), ?_, rfl, ?_⟩
    · simp [getJobEntries, hstore, QueryValue.truthy, QueryValue.isNotAll, hne, hall, jobFind,
        castFilter, Except.map]
    · intro j
      simp [List.mem_filter]
  · intro h
    rcases h with h | h | h <;> subst h <;>
      simp [getJobEntries, hstore, QueryValue.truthy, QueryValue.isNotAll, jobFind]
  · intro vs hv
    subst hv
    refine ⟨s.jobs.filter (fun j =>
        match j.employmentType with
        | some t => vs.contains t
        | none => false), ?_, ?_⟩
    · simp [getJobEntries, hstore, QueryValue.truthy, QueryValue.isNotAll, jobFind,
        castFilter, stringItems_map_str, Except.map]
    · intro j
      simp only [List.mem_filter]
      constructor
      · rintro ⟨hj, hin⟩
        refine ⟨hj, ?_⟩
        cases ht : j.employmentType with
        | none => simp [ht] at hin
        | some t =>
          simp only [ht] at hin
          exact ⟨t, by simpa using hin, rfl⟩
      · rintro ⟨hj, v, hv, hjv⟩
        refine ⟨hj, ?_⟩
        simp only [hjv]
        simpa using hv

/-- Witness for C5: filtering by "Part-time" returns bob's job only. -/
theorem getJobEntries_filter_witness :
    getJobEntries sampleEnv noFaults threeJobStore (some (.str "Part-time"))
      = (⟨200, .jobs [bobJob]⟩, threeJobStore) := by
  obtain ⟨hstr, _, _⟩ :=
    getJobEntries_filter sampleEnv noFaults threeJobStore (some (.str "Part-time")) rfl
  obtain ⟨js, hrun, hjs, _⟩ := hstr "Part-time" rfl (by decide) (by decide)
  have hval : js = [bobJob] := by
    rw [hjs]
    decide
  rw [hrun, hval]

/-- C6 fails on an account created by `/google-sign-in` (no stored password): a login
with that username is answered with the message of the error thrown by `bcrypt.compare`,
while a login with an unknown username is answered "Invalid username or password"; the
two responses differ, so the response tells that the username exists. -/
theorem login_federated_account_distinguishable :
    googleSignIn googleEnv noFaults ⟨[], []⟩ "carol-assertion"
        = (⟨200, .auth (.jws ⟨newId, "Carol", 1000, none⟩ "k1") "Carol"⟩, federatedStore)
      ∧ login sampleEnv noFaults federatedStore "Carol" "pw"
        = (⟨400, .error "Illegal arguments: string, undefined"⟩, federatedStore)
      ∧ login sampleEnv noFaults federatedStore "Dave" "pw"
        = (⟨400, .error "Invalid username or password"⟩, federatedStore)
      ∧ (login sampleEnv noFaults federatedStore "Carol" "pw").1
        ≠ (login sampleEnv noFaults federatedStore "Dave" "pw").1 := by
  refine ⟨by decide, by decide, by decide, by decide⟩

/-- Uniform rejection by `/login` where it does hold: when the store answers and either
no user has the username, or the user found has a stored hash and `bcrypt.compare`
returns false, the response is 400 with the one message "Invalid username or password". -/
theorem login_invalid_credentials_uniform (env : Env) (faults : Faults) (s : Store)
    (username password : String) (hstore : faults 0 = none)
    (h : s.users.find? (fun u => u.username == username) = none
      ∨ ∃ user hash, s.users.find? (fun u => u.username == username) = some user
          ∧ user.password = some hash ∧ env.hasher.compare password hash = .ok false) :
    login env faults s username password
      = (⟨400, .error "Invalid username or password"⟩, s) := by
  rcases h with h | ⟨user, hash, hfind, hpw, hcmp⟩
  · simp [login, hstore, h]
  · simp [login, hstore, hfind, bcryptCompare, hpw, hcmp]

/-- C8, as stated, fails for an id that is not an ObjectId: no job has the id `abc`, and
the response is 500, not 404. -/
theorem putJobEntry_malformed_id_is_500 :
    (sampleStore.jobs.map (fun j => j._id)).contains "abc" = false
      ∧ putJobEntryRoute sampleEnv noFaults (some bobToken) "abc" takeoverBody sampleStore
        = (⟨500, .text "An error occurred while updating the job entry."⟩, sampleStore) :=
  ⟨by decide, rfl⟩

/-- C8, amended: on `PUT /api/jobEntries/:id`, for every body (also one carrying
`postedBy` or `postedDate`): when the store answers and the id is a well-formed ObjectId
that no job has, the response is 404 "Job not found" and the store is what it was; when
the id is not a well-formed ObjectId, the response is 500 and the store is what it was;
in every case the users are untouched, the jobs stay in place one for one, each keeps its
`_id`, `postedBy` and `postedDate`, and each job other than the one named is unchanged. -/
theorem putJobEntry_frame (env : Env) (faults : Faults) (token : Option Token) (id : String)
    (body : JobBody) (s : Store) :
    (∀ user, verifyToken env token = .next user → faults 0 = none →
        findById env.castObjectId id s.jobs = .ok none →
        putJobEntryRoute env faults token id body s = (⟨404, .text "Job not found"⟩, s))
      ∧ (∀ user, verifyToken env token = .next user → env.castObjectId id = none →
        putJobEntryRoute env faults token id body s
          = (⟨500, .text "An error occurred while updating the job entry."⟩, s))
      ∧ (putJobEntryRoute env faults token id body s).2.users = s.users
      ∧ List.Forall₂ (KeptOutsideAllowList (env.castObjectId id)) s.jobs
          (putJobEntryRoute env faults token id body s).2.jobs := by
  have hsame := kept_same (env.castObjectId id) s.jobs
  refine ⟨?_, ?_, ?_, ?_⟩
  · intro user hauth hstore habsent
    obtain ⟨oid, hcast, hnone⟩ := findById_ok_none habsent
    simp [putJobEntryRoute, guarded, hauth, putJobEntry, hstore, findByIdAndUpdate, hcast,
      updateFirst_absent _ _ _ _ hnone]
  · intro user hauth hcast
    unfold putJobEntryRoute guarded putJobEntry
    simp only [hauth, findByIdAndUpdate, hcast]
    split <;> rfl
  · unfold putJobEntryRoute guarded putJobEntry
    split
    · rfl
    · dsimp only
      split
      · rfl
      · split <;> rfl
  · unfold putJobEntryRoute guarded putJobEntry
    split
    · exact hsame
    · dsimp only
      split
      · exact hsame
      · split
        · exact hsame
        · exact hsame
        · rename_i updatedJob jobs hrun
          unfold findByIdAndUpdate at hrun
          cases hcast : env.castObjectId id with
          | none => simp [hcast] at hrun
          | some oid =>
            simp only [hcast, Except.ok.injEq] at hrun
            have hjobs : jobs = (updateFirst env.omitUndefined oid
                ⟨body.title, body.company, body.location, body.description,
                  body.employmentType, body.applyLink⟩ s.jobs).2 := by
              rw [hrun]
            rw [hjobs]
            exact updateFirst_frame _ _ _ _

/-- Witness for C8: bob sends a body carrying `postedBy` and `postedDate` for a
well-formed id that no job has, for a malformed id, and for alice's job. -/
theorem putJobEntry_frame_witness :
    putJobEntryRoute sampleEnv noFaults (some bobToken) unusedId takeoverBody sampleStore
        = (⟨404, .text "Job not found"⟩, sampleStore)
      ∧ putJobEntryRoute sampleEnv noFaults (some bobToken) "abc" takeoverBody sampleStore
        = (⟨500, .text "An error occurred while updating the job entry."⟩, sampleStore)
      ∧ (putJobEntryRoute sampleEnv noFaults (some bobToken) aliceJobId takeoverBody
          sampleStore).2.users = sampleStore.users
      ∧ List.Forall₂ (KeptOutsideAllowList (some aliceJobId)) sampleStore.jobs
          (putJobEntryRoute sampleEnv noFaults (some bobToken) aliceJobId takeoverBody
            sampleStore).2.jobs :=
  ⟨(putJobEntry_frame sampleEnv noFaults (some bobToken) unusedId takeoverBody sampleStore).1
      bobUser (by decide) rfl rfl,
    (putJobEntry_frame sampleEnv noFaults (some bobToken) "abc" takeoverBody sampleStore).2.1
      bobUser (by decide) rfl,
    (putJobEntry_frame sampleEnv noFaults (some bobToken) aliceJobId takeoverBody
      sampleStore).2.2.1,
    (putJobEntry_frame sampleEnv noFaults (some bobToken) aliceJobId takeoverBody
      sampleStore).2.2.2⟩

/-- C9: a token signed for `{_id, username}` under the server secret, presented in the
`auth-token` header to a server holding the same secret: signed with the one-day ttl of
`/register`, the guard passes it with the same `_id` and `username` as `req.user` while
the clock is before `iat + 86400`, and answers 400 "Invalid Token" from then on; signed
without ttl, as `/login` and `/google-sign-in` do, the guard passes it at every time. -/
theorem token_round_trip (env : Env) (k : String) (c : Claims) (issuedAt : Nat)
    (hsecret : env.secret = some k) (hk : k ≠ "") :
    (∃ t, jwtSign c env.secret (some oneDay) issuedAt = .ok t
        ∧ (env.now < issuedAt + oneDay →
            ∃ user, verifyToken env (some t) = .next user
              ∧ user._id = c._id ∧ user.username = c.username)
        ∧ (issuedAt + oneDay ≤ env.now →
            verifyToken env (some t) = .rejected ⟨400, .text "Invalid Token"⟩))
      ∧ (∃ t, jwtSign c env.secret none issuedAt = .ok t
        ∧ ∃ user, verifyToken env (some t) = .next user
          ∧ user._id = c._id ∧ user.username = c.username) := by
  rw [hsecret, jwtSign_ok c k _ _ hk, jwtSign_ok c k _ _ hk]
  refine ⟨⟨_, rfl, ?_, ?_⟩, ⟨_, rfl, ?_⟩⟩
  · intro hbefore
    refine ⟨⟨c._id, c.username, issuedAt, some (issuedAt + oneDay)⟩, ?_, rfl, rfl⟩
    have : ¬ (issuedAt + oneDay ≤ env.now) := by omega
    simp [verifyToken, Token.truthy, jwtVerify, hsecret, hk, this]
  · intro hafter
    simp [verifyToken, Token.truthy, jwtVerify, hsecret, hk, hafter]
  · refine ⟨⟨c._id, c.username, issuedAt, none⟩, ?_, rfl, rfl⟩
    simp [verifyToken, Token.truthy, jwtVerify, hsecret, hk]

/-- Witness for C9: alice's tokens issued at time 1000, presented at once and a day and a
second later. -/
theorem token_round_trip_witness :
    (∃ t, jwtSign ⟨aliceId, "alice"⟩ (some "k1") (some oneDay) 1000 = .ok t
        ∧ ∃ user, verifyToken sampleEnv (some t) = .next user
          ∧ user._id = aliceId ∧ user.username = "alice")
      ∧ (∃ t, jwtSign ⟨aliceId, "alice"⟩ (some "k1") (some oneDay) 1000 = .ok t
        ∧ verifyToken nextDayEnv (some t) = .rejected ⟨400, .text "Invalid Token"⟩)
      ∧ (∃ t, jwtSign ⟨aliceId, "alice"⟩ (some "k1") none 1000 = .ok t
        ∧ ∃ user, verifyToken nextDayEnv (some t) = .next user
          ∧ user._id = aliceId ∧ user.username = "alice") := by
  obtain ⟨⟨t, ht, hbefore, _⟩, _⟩ :=
    token_round_trip sampleEnv "k1" ⟨aliceId, "alice"⟩ 1000 rfl (by decide)
  obtain ⟨⟨t2, ht2, _, hafter⟩, hnone⟩ :=
    token_round_trip nextDayEnv "k1" ⟨aliceId, "alice"⟩ 1000 rfl (by decide)
  exact ⟨⟨t, ht, hbefore (by decide)⟩, ⟨t2, ht2, hafter (by decide)⟩, hnone⟩

/-- The token in the 201 response of `/register` is the one-day token for the new user. -/
theorem register_issues_one_day_token (env : Env) (faults : Faults) (s : Store)
    (username password email hashed k : String)
    (hfind : faults 0 = none) (hsave : faults 1 = none)
    (hnew : s.users.find? (matchesEmailOrUsername email username) = none)
    (hhash : env.hasher.hash password 10 = .ok hashed)
    (hsecret : env.secret = some k) (hk : k ≠ "") :
    ∃ t, jwtSign ⟨env.freshId, username⟩ env.secret (some oneDay) env.now = .ok t
      ∧ register env faults s username password email
        = (⟨201, .auth t username⟩,
            { s with users := s.users ++ [⟨env.freshId, username, some email, some hashed, none⟩] }) := by
  refine ⟨_, by rw [hsecret]; exact jwtSign_ok _ k _ _ hk, ?_⟩
  simp [register, hfind, hnew, hhash, hsave, hsecret, jwtSign, hk]

/-- The token in the 200 response of `/login` is the token without ttl for the user found. -/
theorem login_issues_token_without_ttl (env : Env) (faults : Faults) (s : Store)
    (username password hash k : String) (user : User)
    (hstore : faults 0 = none)
    (hfind : s.users.find? (fun u => u.username == username) = some user)
    (hpw : user.password = some hash) (hcmp : env.hasher.compare password hash = .ok true)
    (hsecret : env.secret = some k) (hk : k ≠ "") :
    ∃ t, jwtSign ⟨user._id, user.username⟩ env.secret none env.now = .ok t
      ∧ login env faults s username password = (⟨200, .auth t user.username⟩, s) := by
  refine ⟨_, by rw [hsecret]; exact jwtSign_ok _ k _ _ hk, ?_⟩
  simp [login, hstore, hfind, bcryptCompare, hpw, hcmp, hsecret, jwtSign, hk]

/-- C10, as stated, fails for a payload whose display name is the empty string: the new
user is not named `""` but after the local part of the email. -/
theorem googleSignIn_empty_name_uses_email :
    googleEnv.verifyIdToken "erin-assertion" = .ok ⟨"g-204", some "", some "erin@example.com"⟩
      ∧ (googleSignIn googleEnv noFaults ⟨[], []⟩ "erin-assertion").2.users
        = [⟨newId, "erin", some "erin@example.com", none, some "g-204"⟩] := by
  refine ⟨rfl, by decide⟩

/-- C10, amended: on `POST /google-sign-in` with a verified payload, no account for its
subject yet and a store that answers, exactly one user is added; its username is the
payload's display name when that is a non-empty string, and otherwise (name absent or
empty) it is the part of the payload's email before the first '@', the whole email when
it has no '@'. -/
theorem googleSignIn_new_user_username (env : Env) (faults : Faults) (s : Store)
    (idToken : String) (payload : Payload)
    (hverify : env.verifyIdToken idToken = .ok payload)
    (hfind : faults 0 = none) (hsave : faults 1 = none)
    (hnew : s.users.find? (fun u => u.googleId == some payload.sub) = none)
    (hname : truthy payload.name = true ∨ payload.email ≠ none) :
    ∃ u, (googleSignIn env faults s idToken).2.users = s.users ++ [u]
      ∧ (∀ n, payload.name = some n → n ≠ "" → u.username = n)
      ∧ (∀ e, payload.name = none ∨ payload.name = some "" → payload.email = some e →
          ((∃ rest, e.toList = u.username.toList ++ '@' :: rest) ∨ ('@' ∉ e.toList ∧ u.username = e))
            ∧ '@' ∉ u.username.toList) := by
  obtain ⟨username, hdisplay⟩ : ∃ username, displayName payload = .ok username := by
    unfold displayName
    by_cases ht : truthy payload.name = true
    · exact ⟨_, by rw [if_pos ht]⟩
    · rcases hname with h | h
      · exact absurd h ht
      · obtain ⟨e, he⟩ := Option.ne_none_iff_exists'.mp h
        exact ⟨_, by rw [if_neg ht, he]⟩
  refine ⟨⟨env.freshId, username, payload.email, none, some payload.sub⟩, ?_, ?_, ?_⟩
  · unfold googleSignIn
    simp only [hverify, hdisplay, hfind, hnew, hsave]
    split <;> rfl
  · intro n hn hne
    have ht : truthy (some n) = true := by simp [truthy, hne]
    simp only [displayName, hn, ht, if_true, Option.getD_some] at hdisplay
    exact (Except.ok.inj hdisplay).symm
  · intro e hn he
    have ht : ¬ truthy payload.name = true := by
      rcases hn with h | h <;> simp [truthy, h]
    simp only [displayName, ht, he] at hdisplay
    have hu : username = splitHead e '@' := (Except.ok.inj hdisplay).symm
    subst hu
    exact splitHead_spec e '@'

/-- Witness for C10: Carol signs in with Google for the first time. -/
theorem googleSignIn_new_user_username_witness :
    ∃ u, (googleSignIn googleEnv noFaults ⟨[], []⟩ "carol-assertion").2.users = [] ++ [u]
      ∧ u.username = "Carol" := by
  obtain ⟨u, husers, hname, _⟩ :=
    googleSignIn_new_user_username googleEnv noFaults ⟨[], []⟩ "carol-assertion"
      ⟨"g-117", some "Carol", some "carol@gmail.com"⟩ rfl rfl rfl rfl (Or.inl (by decide))
  exact ⟨u, husers, hname "Carol" rfl (by decide)⟩

/-- C7 fails on `/login` and on the job list: with the store unreachable, `/login`
answers 400 with the message of the exception and `GET /api/jobEntries` answers 500 with
the exception itself as the body, while the sibling `/register` answers the same failure
with 500 and its fixed message. -/
theorem store_down_login_and_list :
    login sampleEnv storeDown sampleStore "alice" "pw1"
        = (⟨400, .error "connect ECONNREFUSED 127.0.0.1:27017"⟩, sampleStore)
      ∧ getJobEntries sampleEnv storeDown sampleStore none
        = (⟨500, .object [("name", "MongoNetworkError")]⟩, sampleStore)
      ∧ register sampleEnv storeDown sampleStore "zed" "pw" "z@x.com"
        = (⟨500, .text "An error occurred during registration."⟩, sampleStore) :=
  ⟨rfl, rfl, rfl⟩

/-- The responses of `/login` and of the job list to a store exception are functions of
the exception: its message, and its enumerable properties. -/
theorem login_and_list_forward_exception (env : Env) (faults : Faults) (s : Store) (e : Exn)
    (username password : String) (employmentType : Option QueryValue)
    (h : faults 0 = some e) :
    login env faults s username password = (⟨400, .error e.message⟩, s)
      ∧ getJobEntries env faults s employmentType = (⟨500, .object e.props⟩, s) := by
  simp [login, getJobEntries, h]

/-- The sibling handlers (register, google-sign-in, job create, user posts, get-by-id,
update, delete): when a store call throws, for `/register` also the hashing primitive,
they answer 500 with their own fixed message, whatever the exception, and leave the
store as it was. -/
theorem sibling_handlers_fixed_500 (env : Env) (faults : Faults) (s : Store) (e : Exn)
    (username password email idToken id : String) (body : JobBody) (user : Decoded) :
    (faults 0 = some e → register env faults s username password email
        = (⟨500, .text "An error occurred during registration."⟩, s))
      ∧ (faults 0 = none → s.users.find? (matchesEmailOrUsername email username) = none →
          env.hasher.hash password 10 = .error e →
          register env faults s username password email
            = (⟨500, .text "An error occurred during registration."⟩, s))
      ∧ (∀ hashed, faults 0 = none →
          s.users.find? (matchesEmailOrUsername email username) = none →
          env.hasher.hash password 10 = .ok hashed → faults 1 = some e →
          register env faults s username password email
            = (⟨500, .text "An error occurred during registration."⟩, s))
      ∧ (faults 0 = some e → googleSignIn env faults s idToken
          = (⟨500, .text "An error occurred during Google sign-in."⟩, s))
      ∧ (∀ payload, env.verifyIdToken idToken = .ok payload → faults 0 = none →
          s.users.find? (fun u => u.googleId == some payload.sub) = none → faults 1 = some e →
          googleSignIn env faults s idToken
            = (⟨500, .text "An error occurred during Google sign-in."⟩, s))
      ∧ (faults 0 = some e → postJobEntry env faults body user s
          = (⟨500, .text "An error occurred while posting the job advertisement."⟩, s))
      ∧ (faults 0 = some e → getUserPosts faults user s
          = (⟨500, .text "An error occurred while fetching the user's job posts."⟩, s))
      ∧ (faults 0 = some e → getJobEntry env faults s id
          = (⟨500, .text "An error occurred while fetching the job details."⟩, s))
      ∧ (faults 0 = some e → putJobEntry env faults id body user s
          = (⟨500, .text "An error occurred while updating the job entry."⟩, s))
      ∧ (faults 0 = some e → deleteJobEntry env faults id user s
          = (⟨500, .text "An error occurred while deleting the job entry."⟩, s))
      ∧ (∀ job, faults 0 = none → findById env.castObjectId id s.jobs = .ok (some job) →
          job.postedBy = some user._id → faults 1 = some e →
          deleteJobEntry env faults id user s
            = (⟨500, .text "An error occurred while deleting the job entry."⟩, s)) := by
  refine ⟨?_, ?_, ?_, ?_, ?_, ?_, ?_, ?_, ?_, ?_, ?_⟩
  · intro h
    simp [register, h]
  · intro h0 hnew hhash
    simp [register, h0, hnew, hhash]
  · intro hashed h0 hnew hhash h1
    simp [register, h0, hnew, hhash, h1]
  · intro h
    unfold googleSignIn
    split
    · rfl
    · split
      · rfl
      · simp [h]
  · intro payload hverify h0 hnew h1
    unfold googleSignIn
    rw [hverify]
    dsimp only
    split
    · rfl
    · simp [h0, hnew, h1]
  · intro h
    simp [postJobEntry, h]
  · intro h
    simp [getUserPosts, h]
  · intro h
    simp [getJobEntry, h]
  · intro h
    simp [putJobEntry, h]
  · intro h
    simp [deleteJobEntry, h]
  · intro job h0 hjob howner h1
    simp [deleteJobEntry, h0, hjob, howner, h1]

end JobBoard
